import Mathlib

/-!
Verification of the gandi-dyn dynamic-DNS updater (main.go).

The program is shallowly embedded as pure Lean functions.  Remote calls
(the Gandi XML-RPC endpoint and the public-IP HTTP endpoint) are modelled
by an explicit oracle of responses; every issued remote call is recorded
in a trace of Call events, and printed lines are collected as lists of
strings.  Go errors are modelled by the inductive GErr, whose message
function reproduces the Go error strings.
-/

deriving instance DecidableEq for Except

namespace GandiDyn

/-- A record identifier string is parsed with strconv.ParseInt(id, 10, 64)
in DeleteRecord (main.go line 87): optional sign, at least one decimal
digit, nothing else, and the value must fit in a signed 64-bit integer. -/
def parseInt64 (s : String) : Except String Int :=
  let cs := s.data
  let signed : Bool × List Char :=
    match cs with
    | '+' :: rest => (false, rest)
    | '-' :: rest => (true, rest)
    | _ => (false, cs)
  let neg := signed.1
  let ds := signed.2
  if ds.isEmpty then Except.error "invalid syntax"
  else if ds.all Char.isDigit then
    let n : Nat := ds.foldl (fun acc c => acc * 10 + (c.toNat - 48)) 0
    let v : Int := if neg then -(n : Int) else (n : Int)
    if v < -(2 ^ 63) ∨ 2 ^ 63 - 1 < v then Except.error "value out of range"
    else Except.ok v
  else Except.error "invalid syntax"

/-- Greedy match of one or more decimal digits at the head of the list,
returning the remaining characters (the regexp atom d+ of reIP). -/
def matchDigits : List Char → Option (List Char)
  | c :: rest => if c.isDigit then some (rest.dropWhile Char.isDigit) else none
  | [] => none

/-- Match of the whole reIP pattern (digits dot digits dot digits dot
digits) starting at the head of the list; trailing characters may remain. -/
def matchQuadAt (s : List Char) : Bool :=
  match matchDigits s with
  | none => false
  | some s1 =>
    match s1 with
    | '.' :: s2 =>
      match matchDigits s2 with
      | none => false
      | some s3 =>
        match s3 with
        | '.' :: s4 =>
          match matchDigits s4 with
          | none => false
          | some s5 =>
            match s5 with
            | '.' :: s6 => (matchDigits s6).isSome
            | _ => false
        | _ => false
    | _ => false

/-- reIP.MatchString from main.go line 159/184: the unanchored regexp
search succeeds when the quad pattern matches at some position. -/
def reIPMatch (s : String) : Bool :=
  s.data.tails.any matchQuadAt

/-- Digit-run to natural number value. -/
def digitsToNat (cs : List Char) : Nat :=
  cs.foldl (fun acc c => acc * 10 + (c.toNat - 48)) 0

/-- Splitting of a character list on the dot character. -/
def splitDots : List Char → List (List Char)
  | [] => [[]]
  | c :: rest =>
    match splitDots rest with
    | [] => []
    | g :: gs => if c = '.' then [] :: g :: gs else (c :: g) :: gs

/-- Modelled from the spec: dotted-quad IPv4 syntax.  The whole string is
four decimal components separated by dots, each a nonempty digit run whose
value is at most 255.  This is the specification notion the source regexp
check is compared against; it is not a translation of source code. -/
def specDottedQuad (s : String) : Bool :=
  match splitDots s.data with
  | [a, b, c, d] =>
    [a, b, c, d].all fun p =>
      !p.isEmpty && p.all Char.isDigit && digitsToNat p ≤ 255
  | _ => false

/-- DNS record as listed by the registrar (struct Record, main.go 55-61).
The Go field Type is named type here because Type is reserved in Lean. -/
structure Record where
  Id : String
  type : String
  Name : String
  Value : String
  TTL : Int
  deriving DecidableEq, Repr

/-- Payload of a record-add call (struct NewRecord, main.go 48-53).  It
deliberately has no identifier field: the registrar assigns one. -/
structure NewRecord where
  type : String
  Name : String
  Value : String
  TTL : Int
  deriving DecidableEq, Repr

/-- One remote call issued by the program, with its arguments (the shared
API key is omitted: it is constant across a run). -/
inductive Call where
  | getZoneId (domain : String)
  | listRecords (zoneId version : Int)
  | cloneVersion (zoneId : Int)
  | deleteRecord (zoneId version id : Int)
  | addRecord (zoneId version : Int) (r : NewRecord)
  | setVersion (zoneId version : Int)
  | deleteVersion (zoneId version : Int)
  deriving DecidableEq, Repr

/-- Calls that mutate registrar state, as opposed to the read-only zone
lookup and record listing. -/
def Call.isMutating : Call → Bool
  | .cloneVersion _ => true
  | .deleteRecord _ _ _ => true
  | .addRecord _ _ _ => true
  | .setVersion _ _ => true
  | .deleteVersion _ _ => true
  | _ => false

/-- Errors returned by the program, one constructor per distinct Go error
site. transport covers every error value produced by the HTTP or XML-RPC
transport itself (err of client.Call, the IP fetch, JSON decoding). -/
inductive GErr where
  | transport (m : String)
  | parseFail (id : String) (m : String)
  | noRecordDeleted
  | activationFailed
  | versionDeleteFailed
  | notIPv4 (s : String)
  | missingApiKey
  | missingDomain
  | ipChanged (ip : String)
  deriving DecidableEq, Repr

/-- Go error strings, as produced by fmt.Errorf at each site. -/
def GErr.message : GErr → String
  | .transport m => m
  | .parseFail id m => "strconv.ParseInt: parsing \"" ++ id ++ "\": " ++ m
  | .noRecordDeleted => "no record deleted"
  | .activationFailed => "zone activation failed for unknown reason"
  | .versionDeleteFailed => "zone version deletion failed for unknown reason"
  | .notIPv4 s => "does not look like an IPv4: \x7b" ++ s ++ "\x7d"
  | .missingApiKey => "missing api-key argument"
  | .missingDomain => "missing domain argument"
  | .ipChanged ip => "ip changed to " ++ ip

/-- Responses of the remote environment, keyed by the call arguments.
myIP is the ip field extracted from the public-IP endpoint response, or
the transport/decoding error of that fetch.  Each registrar field returns
either the transport error of client.Call or the decoded result. -/
structure Oracle where
  myIP : Except String String
  getZoneId : String → Except String Int
  listRecords : Int → Int → Except String (List Record)
  cloneVersion : Int → Except String Int
  deleteRecord : Int → Int → Int → Except String Int
  addRecord : Int → Int → NewRecord → Except String Record
  setVersion : Int → Int → Except String Bool
  deleteVersion : Int → Int → Except String Bool

/-- GetZoneId (main.go 36-46): one domain.info call. -/
def GetZoneId (o : Oracle) (domain : String) : Except GErr Int × List Call :=
  (match o.getZoneId domain with
   | .error m => .error (.transport m)
   | .ok z => .ok z,
   [Call.getZoneId domain])

/-- GetZoneRecords (main.go 63-72): one domain.zone.record.list call. -/
def GetZoneRecords (o : Oracle) (zoneId version : Int) :
    Except GErr (List Record) × List Call :=
  (match o.listRecords zoneId version with
   | .error m => .error (.transport m)
   | .ok rs => .ok rs,
   [Call.listRecords zoneId version])

/-- CopyZoneVersion (main.go 74-82): one domain.zone.version.new call. -/
def CopyZoneVersion (o : Oracle) (zoneId : Int) : Except GErr Int × List Call :=
  (match o.cloneVersion zoneId with
   | .error m => .error (.transport m)
   | .ok v => .ok v,
   [Call.cloneVersion zoneId])

/-- DeleteRecord (main.go 84-104): the identifier string is first parsed
as a 64-bit integer; on parse failure the remote call is never issued and
the parse error is returned.  Otherwise one domain.zone.record.delete
call is issued and the deletion count returned. -/
def DeleteRecord (o : Oracle) (zoneId version : Int) (id : String) :
    Except GErr Int × List Call :=
  match parseInt64 id with
  | .error m => (.error (.parseFail id m), [])
  | .ok intId =>
    (match o.deleteRecord zoneId version intId with
     | .error m => .error (.transport m)
     | .ok n => .ok n,
     [Call.deleteRecord zoneId version intId])

/-- AddRecord (main.go 106-122): the Record is projected to a NewRecord
(dropping the identifier) and one domain.zone.record.add call is issued. -/
def AddRecord (o : Oracle) (zoneId version : Int) (record : Record) :
    Except GErr Record × List Call :=
  let r : NewRecord := ⟨record.type, record.Name, record.Value, record.TTL⟩
  (match o.addRecord zoneId version r with
   | .error m => .error (.transport m)
   | .ok created => .ok created,
   [Call.addRecord zoneId version r])

/-- SetZoneVersion (main.go 124-139): one domain.zone.version.set call;
a false result is turned into an explicit activation error. -/
def SetZoneVersion (o : Oracle) (zoneId version : Int) :
    Except GErr Unit × List Call :=
  (match o.setVersion zoneId version with
   | .error m => .error (.transport m)
   | .ok false => .error .activationFailed
   | .ok true => .ok (),
   [Call.setVersion zoneId version])

/-- DeleteZoneVersion (main.go 141-156): one domain.zone.version.delete
call; a false result is turned into an explicit deletion error. -/
def DeleteZoneVersion (o : Oracle) (zoneId version : Int) :
    Except GErr Unit × List Call :=
  (match o.deleteVersion zoneId version with
   | .error m => .error (.transport m)
   | .ok false => .error .versionDeleteFailed
   | .ok true => .ok (),
   [Call.deleteVersion zoneId version])

/-- getMyIP (main.go 162-188): fetch the ip field and require the reIP
regexp to match somewhere in it.  Transport, HTTP-status and JSON
failures are all folded into the Except.error case of the oracle field. -/
def getMyIP (o : Oracle) : Except GErr String :=
  match o.myIP with
  | .error m => .error (.transport m)
  | .ok s => if reIPMatch s then .ok s else .error (.notIPv4 s)

/-- Loop condition of updateRecords and of the drift scan in checkIP
(main.go 198 and 261): an A record whose value differs from the ip. -/
def drifted (ip : String) (r : Record) : Bool :=
  r.type == "A" && r.Value != ip

/-- Identifier of a record as the 64-bit integer its string parses to
(0 when it does not parse; only used under a parse-success hypothesis). -/
def recIdInt (r : Record) : Int :=
  match parseInt64 r.Id with
  | .ok n => n
  | .error _ => 0

/-- Replacement payload for a drifted record: same type, name and TTL,
the new ip as value, no identifier (main.go 201-202 and 107-112). -/
def newRec (ip : String) (r : Record) : NewRecord :=
  ⟨r.type, r.Name, ip, r.TTL⟩

/-- The delete+add call pair issued for one drifted record. -/
def pairCalls (zoneId version : Int) (ip : String) (r : Record) : List Call :=
  [Call.deleteRecord zoneId version (recIdInt r),
   Call.addRecord zoneId version (newRec ip r)]

/-- The environment lets the delete+add pair of record r succeed: the
identifier parses, the delete call returns a count of at least 1, and the
add call succeeds. -/
def deleteAddOk (o : Oracle) (zoneId version : Int) (ip : String) (r : Record) : Bool :=
  (match parseInt64 r.Id with
   | .ok _ => true
   | .error _ => false) &&
  (match o.deleteRecord zoneId version (recIdInt r) with
   | .ok n => decide (1 ≤ n)
   | .error _ => false) &&
  (match o.addRecord zoneId version (newRec ip r) with
   | .ok _ => true
   | .error _ => false)

/-- Body of the updateRecords loop (main.go 197-215), processing the
listed records in order.  Non-A records and records already holding the
ip are skipped.  For a drifted record the delete call is issued first;
any error, or a deletion count below one, aborts the loop at once. -/
def updateRecordsGo (o : Oracle) (zoneId version : Int) (ip : String) :
    List Record → Except GErr Unit × List Call
  | [] => (.ok (), [])
  | r :: rest =>
    if drifted ip r then
      match DeleteRecord o zoneId version r.Id with
      | (.error e, t1) => (.error e, t1)
      | (.ok n, t1) =>
        if n < 1 then (.error .noRecordDeleted, t1)
        else
          match AddRecord o zoneId version { r with Value := ip } with
          | (.error e, t2) => (.error e, t1 ++ t2)
          | (.ok _, t2) =>
            let tail := updateRecordsGo o zoneId version ip rest
            (tail.1, t1 ++ t2 ++ tail.2)
    else
      updateRecordsGo o zoneId version ip rest

/-- updateRecords (main.go 190-217): the passed-in records parameter is
discarded and the given version is re-listed; the loop then processes the
fresh listing.  The progress print of each updated record is not
modelled (it carries no information the claims mention). -/
def updateRecords (o : Oracle) (records0 : List Record) (zoneId version : Int)
    (ip : String) : Except GErr Unit × List Call :=
  let _ := records0
  match GetZoneRecords o zoneId version with
  | (.error e, t) => (.error e, t)
  | (.ok records, t) =>
    let tail := updateRecordsGo o zoneId version ip records
    (tail.1, t ++ tail.2)

/-- Stdout line printed after the zone lookup (main.go 252). -/
def zoneIdLine (zoneId : Int) : String :=
  "zoneid " ++ toString zoneId

/-- Stdout line of a failed rollback (main.go 280).  The Go call passes
the literal format string and the original error err as two Println
arguments, so the format verb is printed verbatim. -/
def compLine (e : GErr) : String :=
  "zone version deletion failed: %s " ++ e.message

/-- Stdout line of a failed activation (main.go 286), with the same
Println format quirk. -/
def actFailLine (e : GErr) : String :=
  "zone activation failed: %s " ++ e.message

/-- Tail of checkIP after a successful clone (main.go 275-291): apply the
record changes; on failure delete the cloned version (logging a rollback
failure but returning the original error); on success activate the new
version and report the ip change.  Returns the outcome, the calls issued
by this part, and the lines it prints. -/
def applyAndActivate (o : Oracle) (zoneId newVersion : Int) (ip : String) :
    Except GErr Unit × List Call × List String :=
  match updateRecords o [] zoneId newVersion ip with
  | (.error e, ut) =>
    match DeleteZoneVersion o zoneId newVersion with
    | (.error _, dt) =>
      (.error e, ut ++ dt,
       ["failed to apply records, deleting zone version", compLine e])
    | (.ok _, dt) =>
      (.error e, ut ++ dt,
       ["failed to apply records, deleting zone version"])
  | (.ok _, ut) =>
    match SetZoneVersion o zoneId newVersion with
    | (.error e2, st) => (.error e2, ut ++ st, [actFailLine e2])
    | (.ok _, st) =>
      (.error (.ipChanged ip), ut ++ st, ["zone activated"])

/-- checkIP (main.go 219-292) for invocations whose arguments contain no
flag syntax, so flag.Parse leaves them as the positional arguments args.
Returns the outcome (Except.ok () exactly when Go returns nil), the trace
of remote calls in issue order, and the stdout lines in print order. -/
def checkIP (o : Oracle) (args : List String) :
    Except GErr Unit × List Call × List String :=
  match args with
  | [] => (.error .missingApiKey, [], [])
  | [_] => (.error .missingDomain, [], [])
  | _key :: domain :: _ =>
    match getMyIP o with
    | .error e => (.error e, [], [])
    | .ok ip =>
      match GetZoneId o domain with
      | (.error e, t0) => (.error e, t0, [ip])
      | (.ok zoneId, t0) =>
        match GetZoneRecords o zoneId 0 with
        | (.error e, t1) => (.error e, t0 ++ t1, [ip, zoneIdLine zoneId])
        | (.ok records, t1) =>
          if records.any (drifted ip) then
            match CopyZoneVersion o zoneId with
            | (.error e, t2) =>
              (.error e, t0 ++ t1 ++ t2, [ip, zoneIdLine zoneId])
            | (.ok newVersion, t2) =>
              let tail := applyAndActivate o zoneId newVersion ip
              (tail.1, t0 ++ t1 ++ t2 ++ tail.2.1,
               [ip, zoneIdLine zoneId] ++ tail.2.2)
          else
            (.ok (), t0 ++ t1, [ip, zoneIdLine zoneId, "unchanged ip"])

/-- main (main.go 294-300): a nil result exits 0; any error prints one
formatted line to stderr and exits 1.  Returns the exit status, the
stdout lines and the stderr lines. -/
def mainRun (o : Oracle) (args : List String) :
    Nat × List String × List String :=
  match checkIP o args with
  | (.error e, _, out) => (1, out, ["err: " ++ e.message])
  | (.ok _, _, out) => (0, out, [])

/-- The single A record of the worked example in the specification. -/
def recA : Record := ⟨"1001", "A", "@", "1.2.3.4", 300⟩

/-- A record whose identifier string is not a number. -/
def recBad : Record := ⟨"12ab", "A", "www", "1.2.3.4", 300⟩

/-- Environment of the specification scenario where the resolved ip
already matches the single A record. -/
def oUnchanged : Oracle where
  myIP := Except.ok "1.2.3.4"
  getZoneId := fun _ => .ok 11
  listRecords := fun _ _ => .ok [recA]
  cloneVersion := fun _ => .error "unexpected clone"
  deleteRecord := fun _ _ _ => .error "unexpected delete"
  addRecord := fun _ _ _ => .error "unexpected add"
  setVersion := fun _ _ => .error "unexpected set"
  deleteVersion := fun _ _ => .error "unexpected version delete"

/-- Environment of the specification scenario where the ip changed and
every remote call succeeds: clone yields version 7, the delete call
removes one record, the add call returns the fresh record 2002 and the
activation succeeds. -/
def oChanged : Oracle where
  myIP := Except.ok "5.6.7.8"
  getZoneId := fun _ => .ok 11
  listRecords := fun _ _ => .ok [recA]
  cloneVersion := fun _ => .ok 7
  deleteRecord := fun _ v i => if v = 7 ∧ i = 1001 then .ok 1 else .error "bad delete"
  addRecord := fun _ v nr =>
    if v = 7 then .ok ⟨"2002", nr.type, nr.Name, nr.Value, nr.TTL⟩ else .error "bad add"
  setVersion := fun _ v => .ok (decide (v = 7))
  deleteVersion := fun _ _ => .ok true

/-- Environment where the add call fails and the rollback deletion of the
cloned version also fails. -/
def oAddFail : Oracle where
  myIP := Except.ok "5.6.7.8"
  getZoneId := fun _ => .ok 11
  listRecords := fun _ _ => .ok [recA]
  cloneVersion := fun _ => .ok 7
  deleteRecord := fun _ v i => if v = 7 ∧ i = 1001 then .ok 1 else .error "bad delete"
  addRecord := fun _ _ _ => .error "add failed"
  setVersion := fun _ _ => .ok true
  deleteVersion := fun _ _ => .error "rollback failed"

/-- Environment of the specification scenario where the delete call
reports a deletion count of zero. -/
def oDelZero : Oracle where
  myIP := Except.ok "5.6.7.8"
  getZoneId := fun _ => .ok 11
  listRecords := fun _ _ => .ok [recA]
  cloneVersion := fun _ => .ok 7
  deleteRecord := fun _ _ _ => .ok 0
  addRecord := fun _ _ _ => .error "unexpected add"
  setVersion := fun _ _ => .ok true
  deleteVersion := fun _ _ => .ok true

/-- Environment whose cloned version lists a record with an unparsable
identifier. -/
def oBadId : Oracle where
  myIP := Except.ok "5.6.7.8"
  getZoneId := fun _ => .ok 11
  listRecords := fun _ _ => .ok [recBad]
  cloneVersion := fun _ => .ok 7
  deleteRecord := fun _ _ _ => .error "unexpected delete"
  addRecord := fun _ _ _ => .error "unexpected add"
  setVersion := fun _ _ => .ok true
  deleteVersion := fun _ _ => .ok true

/-- Environment whose public-IP endpoint returns a string that is not a
dotted quad but contains one, so that the unanchored regexp accepts it. -/
def oLoose : Oracle where
  myIP := Except.ok "ab1.2.3.4"
  getZoneId := fun _ => .ok 11
  listRecords := fun _ _ => .ok [recA]
  cloneVersion := fun _ => .ok 7
  deleteRecord := fun _ v i => if v = 7 ∧ i = 1001 then .ok 1 else .error "bad delete"
  addRecord := fun _ v nr =>
    if v = 7 then .ok ⟨"2002", nr.type, nr.Name, nr.Value, nr.TTL⟩ else .error "bad add"
  setVersion := fun _ _ => .ok true
  deleteVersion := fun _ _ => .ok true

/-- Environment where every change applies but the activation call
reports an explicit false result. -/
def oActFail : Oracle where
  myIP := Except.ok "5.6.7.8"
  getZoneId := fun _ => .ok 11
  listRecords := fun _ _ => .ok [recA]
  cloneVersion := fun _ => .ok 7
  deleteRecord := fun _ v i => if v = 7 ∧ i = 1001 then .ok 1 else .error "bad delete"
  addRecord := fun _ v nr =>
    if v = 7 then .ok ⟨"2002", nr.type, nr.Name, nr.Value, nr.TTL⟩ else .error "bad add"
  setVersion := fun _ _ => .ok false
  deleteVersion := fun _ _ => .ok true

/-- Environment that answers every call with a transport error; used for
runs that must not reach any remote call. -/
def oNull : Oracle where
  myIP := Except.error "offline"
  getZoneId := fun _ => .error "offline"
  listRecords := fun _ _ => .error "offline"
  cloneVersion := fun _ => .error "offline"
  deleteRecord := fun _ _ _ => .error "offline"
  addRecord := fun _ _ _ => .error "offline"
  setVersion := fun _ _ => .error "offline"
  deleteVersion := fun _ _ => .error "offline"

/-! Lemmas on the updateRecords loop. -/

section Helpers

variable (o : Oracle) (z v : Int) (ip : String)

/-- Unfolding of the loop on a record it skips. -/
theorem go_skip (r : Record) (l : List Record) (hd : drifted ip r = false) :
    updateRecordsGo o z v ip (r :: l) = updateRecordsGo o z v ip l := by
  simp [updateRecordsGo, hd]

/-- The three success facts packed in deleteAddOk. -/
theorem deleteAddOk_parts (r : Record) (hok : deleteAddOk o z v ip r = true) :
    (∃ n, parseInt64 r.Id = Except.ok n) ∧
    (∃ cnt, o.deleteRecord z v (recIdInt r) = Except.ok cnt ∧ 1 ≤ cnt) ∧
    ∃ created, o.addRecord z v (newRec ip r) = Except.ok created := by
  unfold deleteAddOk at hok
  rcases hp : parseInt64 r.Id with m | n <;> rw [hp] at hok
  · simp at hok
  · rcases hdel : o.deleteRecord z v (recIdInt r) with m | cnt <;> rw [hdel] at hok
    · simp at hok
    · rcases hadd : o.addRecord z v (newRec ip r) with m | created <;> rw [hadd] at hok
      · simp at hok
      · simp at hok
        exact ⟨⟨n, rfl⟩, ⟨cnt, rfl, hok⟩, ⟨created, rfl⟩⟩

/-- Unfolding of the loop on a drifted record whose delete+add pair
succeeds: the pair of calls is issued and the loop continues. -/
theorem go_step_ok (r : Record) (l : List Record) (hd : drifted ip r = true)
    (hok : deleteAddOk o z v ip r = true) :
    updateRecordsGo o z v ip (r :: l) =
      ((updateRecordsGo o z v ip l).1,
       pairCalls z v ip r ++ (updateRecordsGo o z v ip l).2) := by
  obtain ⟨⟨n, hp⟩, ⟨cnt, hdel, hcnt⟩, created, hadd⟩ := deleteAddOk_parts o z v ip r hok
  have hid : recIdInt r = n := by simp [recIdInt, hp]
  rw [hid] at hdel
  have hlt : ¬ cnt < 1 := not_lt.mpr hcnt
  simp [updateRecordsGo, hd, DeleteRecord, hp, hdel, hlt, AddRecord, newRec] at hadd ⊢
  simp [hadd, pairCalls, hid, newRec]

/-- Processing a list whose head segment succeeds entirely issues the
delete+add pairs of the drifted records of that segment, then continues
with the remaining list. -/
theorem go_append_ok (pre l : List Record)
    (hpre : ∀ p ∈ pre, drifted ip p = true → deleteAddOk o z v ip p = true) :
    updateRecordsGo o z v ip (pre ++ l) =
      ((updateRecordsGo o z v ip l).1,
       (pre.filter (drifted ip)).flatMap (pairCalls z v ip)
         ++ (updateRecordsGo o z v ip l).2) := by
  induction pre with
  | nil => simp
  | cons p pre ih =>
    have hp := hpre p (by simp)
    have hrest : ∀ q ∈ pre, drifted ip q = true → deleteAddOk o z v ip q = true :=
      fun q hq => hpre q (by simp [hq])
    by_cases hd : drifted ip p = true
    · rw [List.cons_append, go_step_ok o z v ip p (pre ++ l) hd (hp hd), ih hrest]
      simp [List.filter_cons, hd, pairCalls]
    · have hdf : drifted ip p = false := by simpa using hd
      rw [List.cons_append, go_skip o z v ip p (pre ++ l) hdf, ih hrest]
      simp [List.filter_cons, hdf]

/-- Full success of the loop: one delete+add pair per drifted record, in
listing order, and a nil result. -/
theorem go_ok (l : List Record)
    (h : ∀ r ∈ l, drifted ip r = true → deleteAddOk o z v ip r = true) :
    updateRecordsGo o z v ip l =
      (Except.ok (), (l.filter (drifted ip)).flatMap (pairCalls z v ip)) := by
  have hgo := go_append_ok o z v ip l [] h
  simpa [updateRecordsGo] using hgo

/-- A drifted record whose identifier does not parse aborts the loop at
once: no call is issued for it and the listing tail is not processed. -/
theorem go_fail_parse (r : Record) (post : List Record) (m : String)
    (hd : drifted ip r = true) (hp : parseInt64 r.Id = Except.error m) :
    updateRecordsGo o z v ip (r :: post) =
      (Except.error (.parseFail r.Id m), []) := by
  simp [updateRecordsGo, hd, DeleteRecord, hp]

/-- A delete call that reports a count below one aborts the loop with the
no-record-deleted error; the add call for that record is never issued. -/
theorem go_fail_cnt (r : Record) (post : List Record) (n cnt : Int)
    (hd : drifted ip r = true) (hp : parseInt64 r.Id = Except.ok n)
    (hdel : o.deleteRecord z v n = Except.ok cnt) (hcnt : cnt < 1) :
    updateRecordsGo o z v ip (r :: post) =
      (Except.error .noRecordDeleted, [Call.deleteRecord z v n]) := by
  simp [updateRecordsGo, hd, DeleteRecord, hp, hdel, hcnt]

/-- Every call issued by the loop is a record delete, or a record add
whose payload value is the new ip. -/
theorem go_calls_shape (l : List Record) :
    ∀ c ∈ (updateRecordsGo o z v ip l).2,
      (∃ a b i, c = Call.deleteRecord a b i) ∨
      ∃ a b nr, c = Call.addRecord a b nr ∧ nr.Value = ip := by
  induction l with
  | nil => intro c hc; simp [updateRecordsGo] at hc
  | cons r rest ih =>
    intro c hc
    by_cases hd : drifted ip r = true
    · rcases hp : parseInt64 r.Id with m | n
      · rw [go_fail_parse o z v ip r rest m hd hp] at hc
        simp at hc
      · rcases hdel : o.deleteRecord z v n with m | cnt
        · simp [updateRecordsGo, hd, DeleteRecord, hp, hdel] at hc
          exact Or.inl ⟨z, v, n, hc⟩
        · by_cases hcnt : cnt < 1
          · rw [go_fail_cnt o z v ip r rest n cnt hd hp hdel hcnt] at hc
            simp at hc
            exact Or.inl ⟨z, v, n, hc⟩
          · rcases hadd : o.addRecord z v (newRec ip r) with m | created
            all_goals simp [newRec] at hadd
            · simp [updateRecordsGo, hd, DeleteRecord, hp, hdel, hcnt,
                    AddRecord, hadd] at hc
              rcases hc with hc | hc
              · exact Or.inl ⟨z, v, n, hc⟩
              · exact Or.inr ⟨z, v, _, hc, rfl⟩
            · simp [updateRecordsGo, hd, DeleteRecord, hp, hdel, hcnt,
                    AddRecord, hadd] at hc
              rcases hc with hc | hc | hc
              · exact Or.inl ⟨z, v, n, hc⟩
              · exact Or.inr ⟨z, v, _, hc, rfl⟩
              · exact ih c hc
    · have hdf : drifted ip r = false := by simpa using hd
      rw [go_skip o z v ip r rest hdf] at hc
      exact ih c hc

/-- updateRecords lists the given version once and then runs the loop on
the fresh listing. -/
theorem updateRecords_eq (rs records : List Record)
    (hrecs : o.listRecords z v = Except.ok records) :
    updateRecords o rs z v ip =
      ((updateRecordsGo o z v ip records).1,
       Call.listRecords z v :: (updateRecordsGo o z v ip records).2) := by
  simp [updateRecords, GetZoneRecords, hrecs]

/-- Full success of updateRecords. -/
theorem updateRecords_ok (rs records : List Record)
    (hrecs : o.listRecords z v = Except.ok records)
    (h : ∀ r ∈ records, drifted ip r = true → deleteAddOk o z v ip r = true) :
    updateRecords o rs z v ip =
      (Except.ok (), Call.listRecords z v ::
        (records.filter (drifted ip)).flatMap (pairCalls z v ip)) := by
  rw [updateRecords_eq o z v ip rs records hrecs, go_ok o z v ip records h]

/-- Calls issued by updateRecords: the one listing call plus loop calls. -/
theorem updateRecords_calls_shape (rs : List Record) :
    ∀ c ∈ (updateRecords o rs z v ip).2,
      c = Call.listRecords z v ∨
      (∃ a b i, c = Call.deleteRecord a b i) ∨
      ∃ a b nr, c = Call.addRecord a b nr ∧ nr.Value = ip := by
  intro c hc
  rcases hrecs : o.listRecords z v with m | records
  · simp [updateRecords, GetZoneRecords, hrecs] at hc
    exact Or.inl hc
  · rw [updateRecords_eq o z v ip rs records hrecs] at hc
    simp at hc
    rcases hc with hc | hc
    · exact Or.inl hc
    · exact Or.inr (go_calls_shape o z v ip records c hc)

/-- After a failed apply stage the cloned version is deleted exactly once
more and the original error is returned, whatever the rollback outcome. -/
theorem applyAndActivate_fail (e : GErr) (ut : List Call)
    (hu : updateRecords o [] z v ip = (Except.error e, ut)) :
    (applyAndActivate o z v ip).1 = Except.error e ∧
    (applyAndActivate o z v ip).2.1 = ut ++ [Call.deleteVersion z v] ∧
    ((DeleteZoneVersion o z v).1 ≠ Except.ok () →
      compLine e ∈ (applyAndActivate o z v ip).2.2) := by
  rcases hd : o.deleteVersion z v with m | b
  · simp [applyAndActivate, hu, DeleteZoneVersion, hd]
  · cases b <;> simp [applyAndActivate, hu, DeleteZoneVersion, hd]

/-- Successful apply stage followed by successful activation. -/
theorem applyAndActivate_ok (ut : List Call)
    (hu : updateRecords o [] z v ip = (Except.ok (), ut))
    (hact : o.setVersion z v = Except.ok true) :
    applyAndActivate o z v ip =
      (Except.error (.ipChanged ip), ut ++ [Call.setVersion z v],
       ["zone activated"]) := by
  simp [applyAndActivate, hu, SetZoneVersion, hact]

/-- Successful apply stage, failed activation: the activation error is
returned and no further call is issued after the activation call. -/
theorem applyAndActivate_actfail (ut : List Call) (e2 : GErr)
    (hu : updateRecords o [] z v ip = (Except.ok (), ut))
    (hs : (SetZoneVersion o z v).1 = Except.error e2) :
    applyAndActivate o z v ip =
      (Except.error e2, ut ++ [Call.setVersion z v], [actFailLine e2]) := by
  have hsnd : (SetZoneVersion o z v).2 = [Call.setVersion z v] := rfl
  have h2 : SetZoneVersion o z v = (Except.error e2, [Call.setVersion z v]) := by
    calc SetZoneVersion o z v
        = ((SetZoneVersion o z v).1, (SetZoneVersion o z v).2) := rfl
      _ = (Except.error e2, [Call.setVersion z v]) := by rw [hs, hsnd]
  simp [applyAndActivate, hu, h2]

/-- The drifted branch never returns a nil outcome. -/
theorem applyAndActivate_ne_ok :
    (applyAndActivate o z v ip).1 ≠ Except.ok () := by
  rcases hu : updateRecords o [] z v ip with ⟨ures, ut⟩
  cases ures with
  | error e =>
    rcases hd : o.deleteVersion z v with m | b
    · simp [applyAndActivate, hu, DeleteZoneVersion, hd]
    · cases b <;> simp [applyAndActivate, hu, DeleteZoneVersion, hd]
  | ok u =>
    rcases hs : o.setVersion z v with m | b
    · simp [applyAndActivate, hu, SetZoneVersion, hs]
    · cases b <;> simp [applyAndActivate, hu, SetZoneVersion, hs]

/-- A validated resolved ip passes the regexp check. -/
theorem getMyIP_ok (s : String) (h : getMyIP o = Except.ok s) :
    reIPMatch s = true := by
  unfold getMyIP at h
  rcases hm : o.myIP with m | t <;> rw [hm] at h
  · simp at h
  · by_cases hre : reIPMatch t = true
    · simp [hre] at h
      exact h ▸ hre
    · simp [hre] at h

/-- Unfolding of checkIP on the unchanged branch. -/
theorem checkIP_unchanged (key domain : String) (rest : List String)
    (zoneId : Int) (records : List Record)
    (hip : o.myIP = Except.ok ip) (hre : reIPMatch ip = true)
    (hz : o.getZoneId domain = Except.ok zoneId)
    (hrecs : o.listRecords zoneId 0 = Except.ok records)
    (hnodrift : records.any (drifted ip) = false) :
    checkIP o (key :: domain :: rest) =
      (Except.ok (), [Call.getZoneId domain, Call.listRecords zoneId 0],
       [ip, zoneIdLine zoneId, "unchanged ip"]) := by
  simp [checkIP, getMyIP, hip, hre, GetZoneId, hz, GetZoneRecords, hrecs, hnodrift]

/-- Unfolding of checkIP on the drifted branch, down to the clone. -/
theorem checkIP_drifted (key domain : String) (rest : List String)
    (zoneId newVersion : Int) (records : List Record)
    (hip : o.myIP = Except.ok ip) (hre : reIPMatch ip = true)
    (hz : o.getZoneId domain = Except.ok zoneId)
    (hrecs : o.listRecords zoneId 0 = Except.ok records)
    (hdrift : records.any (drifted ip) = true)
    (hclone : o.cloneVersion zoneId = Except.ok newVersion) :
    checkIP o (key :: domain :: rest) =
      ((applyAndActivate o zoneId newVersion ip).1,
       [Call.getZoneId domain, Call.listRecords zoneId 0,
        Call.cloneVersion zoneId]
         ++ (applyAndActivate o zoneId newVersion ip).2.1,
       [ip, zoneIdLine zoneId] ++ (applyAndActivate o zoneId newVersion ip).2.2) := by
  simp [checkIP, getMyIP, hip, hre, GetZoneId, hz, GetZoneRecords, hrecs, hdrift,
        CopyZoneVersion, hclone]

/-- Every delete+add pair call is a mutating call. -/
theorem flatMap_pairCalls_mutating (l : List Record) :
    (l.flatMap (pairCalls z v ip)).filter Call.isMutating =
      l.flatMap (pairCalls z v ip) := by
  refine List.filter_eq_self.mpr ?_
  intro c hc
  rcases List.mem_flatMap.mp hc with ⟨r, _, hcr⟩
  simp [pairCalls] at hcr
  rcases hcr with h | h <;> simp [h, Call.isMutating]

/-- The apply stage never issues a version deletion or activation call. -/
theorem updateRecords_no_dv_sv (rs : List Record) (a b : Int) :
    Call.deleteVersion a b ∉ (updateRecords o rs z v ip).2 ∧
    Call.setVersion a b ∉ (updateRecords o rs z v ip).2 := by
  constructor <;> intro hmem <;>
    rcases updateRecords_calls_shape o z v ip rs _ hmem with
      h | ⟨x, y, i, h⟩ | ⟨x, y, nr, h, _⟩ <;>
    simp at h

/-- Any record-add call issued by the apply stage carries the new ip as
its payload value. -/
theorem updateRecords_addRecord (rs : List Record) (a b : Int) (nr : NewRecord)
    (h : Call.addRecord a b nr ∈ (updateRecords o rs z v ip).2) :
    nr.Value = ip := by
  rcases updateRecords_calls_shape o z v ip rs _ h with
    h2 | ⟨x, y, i, h2⟩ | ⟨x, y, nr2, h2, hv⟩
  · simp at h2
  · simp at h2
  · simp at h2
    obtain ⟨_, _, h3⟩ := h2
    rw [h3]
    exact hv

/-- Any record-add call issued after the clone carries the new ip. -/
theorem applyAndActivate_addRecord (a b : Int) (nr : NewRecord)
    (h : Call.addRecord a b nr ∈ (applyAndActivate o z v ip).2.1) :
    nr.Value = ip := by
  rcases hu : updateRecords o [] z v ip with ⟨ures, ut⟩
  have hut : (updateRecords o [] z v ip).2 = ut := by rw [hu]
  cases ures with
  | error e =>
    rcases hd : o.deleteVersion z v with m | bb
    · simp [applyAndActivate, hu, DeleteZoneVersion, hd] at h
      exact updateRecords_addRecord o z v ip [] a b nr (hut ▸ h)
    · cases bb <;> simp [applyAndActivate, hu, DeleteZoneVersion, hd] at h <;>
        exact updateRecords_addRecord o z v ip [] a b nr (hut ▸ h)
  | ok u =>
    rcases hs : o.setVersion z v with m | bb
    · simp [applyAndActivate, hu, SetZoneVersion, hs] at h
      exact updateRecords_addRecord o z v ip [] a b nr (hut ▸ h)
    · cases bb <;> simp [applyAndActivate, hu, SetZoneVersion, hs] at h <;>
        exact updateRecords_addRecord o z v ip [] a b nr (hut ▸ h)

end Helpers

/-- Whenever checkIP returns nil, no mutating call was issued. -/
theorem checkIP_ok_no_mut (o : Oracle) (args : List String)
    (h : (checkIP o args).1 = Except.ok ()) :
    (checkIP o args).2.1.filter Call.isMutating = [] := by
  match args with
  | [] => simp [checkIP] at h
  | [k] => simp [checkIP] at h
  | key :: domain :: rest =>
    rcases hmy : o.myIP with m | s
    · simp [checkIP, getMyIP, hmy] at h
    · by_cases hre : reIPMatch s = true
      · rcases hz : o.getZoneId domain with m | zoneId
        · simp [checkIP, getMyIP, hmy, hre, GetZoneId, hz] at h
        · rcases hr : o.listRecords zoneId 0 with m | records
          · simp [checkIP, getMyIP, hmy, hre, GetZoneId, hz,
                  GetZoneRecords, hr] at h
          · by_cases hdr : records.any (drifted s) = true
            · rcases hcl : o.cloneVersion zoneId with m | nv
              · simp [checkIP, getMyIP, hmy, hre, GetZoneId, hz,
                      GetZoneRecords, hr, hdr, CopyZoneVersion, hcl] at h
              · rw [checkIP_drifted o s key domain rest zoneId nv records
                      hmy hre hz hr hdr hcl] at h
                exact absurd h (applyAndActivate_ne_ok o zoneId nv s)
            · have hdf : records.any (drifted s) = false := by simpa using hdr
              rw [checkIP_unchanged o s key domain rest zoneId records
                    hmy hre hz hr hdf]
              rfl
      · simp [checkIP, getMyIP, hmy, hre] at h

/-- C1: for every record set in which at least one A record differs from
the resolved current ip, and an environment in which the cloned version
lists the same record set and every remote step succeeds, the mutating
calls of the run are exactly one clone call, followed by exactly one
delete+add pair per differing A record in listing order, followed by
exactly one activation call in last position; in particular the
activation call is issued only after all delete+add pairs completed. -/
theorem C1_transaction_sequence (o : Oracle) (key domain : String)
    (rest : List String) (ip : String) (zoneId newVersion : Int)
    (records : List Record)
    (hip : o.myIP = Except.ok ip) (hre : reIPMatch ip = true)
    (hz : o.getZoneId domain = Except.ok zoneId)
    (hrecs0 : o.listRecords zoneId 0 = Except.ok records)
    (hdrift : records.any (drifted ip) = true)
    (hclone : o.cloneVersion zoneId = Except.ok newVersion)
    (hrecs1 : o.listRecords zoneId newVersion = Except.ok records)
    (hok : ∀ r ∈ records, drifted ip r = true →
      deleteAddOk o zoneId newVersion ip r = true)
    (hact : o.setVersion zoneId newVersion = Except.ok true) :
    (checkIP o (key :: domain :: rest)).2.1.filter Call.isMutating =
      Call.cloneVersion zoneId ::
        ((records.filter (drifted ip)).flatMap (pairCalls zoneId newVersion ip)
          ++ [Call.setVersion zoneId newVersion]) := by
  have hu := updateRecords_ok o zoneId newVersion ip [] records hrecs1 hok
  have haa := applyAndActivate_ok o zoneId newVersion ip _ hu hact
  rw [checkIP_drifted o ip key domain rest zoneId newVersion records
        hip hre hz hrecs0 hdrift hclone, haa]
  simp [List.filter_append, Call.isMutating,
        flatMap_pairCalls_mutating zoneId newVersion ip]

/-- C2: if the apply stage fails with any error, the run issues exactly
one delete-version call for the cloned version, never issues the
activation call, and returns precisely the originating error to the
caller, whatever the outcome of the compensating delete-version call. -/
theorem C2_rollback_preserves_error (o : Oracle) (key domain : String)
    (rest : List String) (ip : String) (zoneId newVersion : Int)
    (records : List Record) (e : GErr)
    (hip : o.myIP = Except.ok ip) (hre : reIPMatch ip = true)
    (hz : o.getZoneId domain = Except.ok zoneId)
    (hrecs0 : o.listRecords zoneId 0 = Except.ok records)
    (hdrift : records.any (drifted ip) = true)
    (hclone : o.cloneVersion zoneId = Except.ok newVersion)
    (hfail : (updateRecords o [] zoneId newVersion ip).1 = Except.error e) :
    (checkIP o (key :: domain :: rest)).1 = Except.error e ∧
    (checkIP o (key :: domain :: rest)).2.1.count
      (Call.deleteVersion zoneId newVersion) = 1 ∧
    Call.setVersion zoneId newVersion ∉ (checkIP o (key :: domain :: rest)).2.1 ∧
    ((DeleteZoneVersion o zoneId newVersion).1 ≠ Except.ok () →
      compLine e ∈ (checkIP o (key :: domain :: rest)).2.2) := by
  have hu : updateRecords o [] zoneId newVersion ip =
      (Except.error e, (updateRecords o [] zoneId newVersion ip).2) := by
    calc updateRecords o [] zoneId newVersion ip
        = ((updateRecords o [] zoneId newVersion ip).1,
           (updateRecords o [] zoneId newVersion ip).2) := rfl
      _ = _ := by rw [hfail]
  obtain ⟨hres, htr, hlog⟩ := applyAndActivate_fail o zoneId newVersion ip e _ hu
  rw [checkIP_drifted o ip key domain rest zoneId newVersion records
        hip hre hz hrecs0 hdrift hclone]
  refine ⟨hres, ?_, ?_, ?_⟩
  · rw [htr]
    have h0 : ((updateRecords o [] zoneId newVersion ip).2).count
        (Call.deleteVersion zoneId newVersion) = 0 :=
      List.count_eq_zero.mpr
        (updateRecords_no_dv_sv o zoneId newVersion ip [] zoneId newVersion).1
    simp [List.count_append, h0]
  · rw [htr]
    intro hmem
    simp at hmem
    exact (updateRecords_no_dv_sv o zoneId newVersion ip [] zoneId newVersion).2 hmem
  · intro hdz
    exact List.mem_append_right _ (hlog hdz)

/-- C3: when no A record differs from the resolved ip (in particular
when there is no A record at all), checkIP prints the unchanged outcome,
returns nil, and the trace holds only the two read-only calls: no clone,
record delete, record add, activation or version deletion is issued. -/
theorem C3_unchanged_no_mutation (o : Oracle) (key domain : String)
    (rest : List String) (ip : String) (zoneId : Int) (records : List Record)
    (hip : o.myIP = Except.ok ip) (hre : reIPMatch ip = true)
    (hz : o.getZoneId domain = Except.ok zoneId)
    (hrecs : o.listRecords zoneId 0 = Except.ok records)
    (hnodrift : records.any (drifted ip) = false) :
    checkIP o (key :: domain :: rest) =
      (Except.ok (), [Call.getZoneId domain, Call.listRecords zoneId 0],
       [ip, zoneIdLine zoneId, "unchanged ip"]) ∧
    (checkIP o (key :: domain :: rest)).2.1.filter Call.isMutating = [] := by
  have h := checkIP_unchanged o ip key domain rest zoneId records
    hip hre hz hrecs hnodrift
  refine ⟨h, ?_⟩
  rw [h]
  rfl

/-- C4: the apply stage re-lists the cloned version and, for each listed
A record whose value differs from the current ip, first deletes it by its
parsed identifier and then adds a replacement with the same type, name
and TTL and the ip as value; the replacement payload is a NewRecord,
which carries no identifier field.  Records of other types, or whose
value already equals the ip, are filtered out and produce no call. -/
theorem C4_replacement_records (o : Oracle) (zoneId version : Int)
    (ip : String) (records : List Record)
    (hrecs : o.listRecords zoneId version = Except.ok records)
    (hok : ∀ r ∈ records, drifted ip r = true →
      deleteAddOk o zoneId version ip r = true) :
    updateRecords o [] zoneId version ip =
      (Except.ok (), Call.listRecords zoneId version ::
        (records.filter (drifted ip)).flatMap (fun r =>
          [Call.deleteRecord zoneId version (recIdInt r),
           Call.addRecord zoneId version ⟨r.type, r.Name, ip, r.TTL⟩])) := by
  have h := updateRecords_ok o zoneId version ip [] records hrecs hok
  simpa [pairCalls, newRec] using h

/-- C5: a drifted record whose identifier string does not parse as a
64-bit integer makes the apply stage fail with the distinct parse error
before any delete call is attempted for it: the trace holds only the
listing call and the pairs of the records preceding it, and no record
after it in the listing is processed. -/
theorem C5_unparsable_id_aborts (o : Oracle) (zoneId version : Int)
    (ip : String) (pre : List Record) (r : Record) (post : List Record)
    (m : String)
    (hrecs : o.listRecords zoneId version = Except.ok (pre ++ r :: post))
    (hpre : ∀ p ∈ pre, drifted ip p = true →
      deleteAddOk o zoneId version ip p = true)
    (hd : drifted ip r = true)
    (hparse : parseInt64 r.Id = Except.error m) :
    updateRecords o [] zoneId version ip =
      (Except.error (.parseFail r.Id m),
       Call.listRecords zoneId version ::
         (pre.filter (drifted ip)).flatMap (pairCalls zoneId version ip)) := by
  rw [updateRecords_eq o zoneId version ip [] _ hrecs,
      go_append_ok o zoneId version ip pre (r :: post) hpre,
      go_fail_parse o zoneId version ip r post m hd hparse]
  simp

/-- C6: a delete call that completes with a deletion count below one
makes the run fail with the no-record-deleted error; the add call for
that record is never issued, no later record is processed, and the run
proceeds to delete the cloned version. -/
theorem C6_delete_count_below_one (o : Oracle) (key domain : String)
    (rest : List String) (ip : String) (zoneId newVersion : Int)
    (records0 pre : List Record) (r : Record) (post : List Record)
    (n cnt : Int)
    (hip : o.myIP = Except.ok ip) (hre : reIPMatch ip = true)
    (hz : o.getZoneId domain = Except.ok zoneId)
    (hrecs0 : o.listRecords zoneId 0 = Except.ok records0)
    (hdrift : records0.any (drifted ip) = true)
    (hclone : o.cloneVersion zoneId = Except.ok newVersion)
    (hrecs1 : o.listRecords zoneId newVersion = Except.ok (pre ++ r :: post))
    (hpre : ∀ p ∈ pre, drifted ip p = true →
      deleteAddOk o zoneId newVersion ip p = true)
    (hd : drifted ip r = true)
    (hparse : parseInt64 r.Id = Except.ok n)
    (hdel : o.deleteRecord zoneId newVersion n = Except.ok cnt)
    (hcnt : cnt < 1) :
    (checkIP o (key :: domain :: rest)).1 = Except.error .noRecordDeleted ∧
    GErr.message .noRecordDeleted = "no record deleted" ∧
    (checkIP o (key :: domain :: rest)).2.1 =
      [Call.getZoneId domain, Call.listRecords zoneId 0,
       Call.cloneVersion zoneId, Call.listRecords zoneId newVersion] ++
      (pre.filter (drifted ip)).flatMap (pairCalls zoneId newVersion ip) ++
      [Call.deleteRecord zoneId newVersion n,
       Call.deleteVersion zoneId newVersion] := by
  have hu : updateRecords o [] zoneId newVersion ip =
      (Except.error .noRecordDeleted,
       Call.listRecords zoneId newVersion ::
         ((pre.filter (drifted ip)).flatMap (pairCalls zoneId newVersion ip)
           ++ [Call.deleteRecord zoneId newVersion n])) := by
    rw [updateRecords_eq o zoneId newVersion ip [] _ hrecs1,
        go_append_ok o zoneId newVersion ip pre (r :: post) hpre,
        go_fail_cnt o zoneId newVersion ip r post n cnt hd hparse hdel hcnt]
  obtain ⟨hres, htr, _⟩ := applyAndActivate_fail o zoneId newVersion ip _ _ hu
  rw [checkIP_drifted o ip key domain rest zoneId newVersion records0
        hip hre hz hrecs0 hdrift hclone]
  refine ⟨hres, rfl, ?_⟩
  rw [htr]
  simp

/-- C7 (amended): every record-add payload checkIP ever issues carries as
its value the resolved ip string, which passed the reIP regexp check.
Because that regexp is unanchored, this guarantees only that the written
value contains a dotted-quad-shaped substring, not that the whole value
is dotted-quad syntax (see the counterexample). -/
theorem C7_written_value_passes_regexp (o : Oracle) (args : List String)
    (a b : Int) (nr : NewRecord)
    (h : Call.addRecord a b nr ∈ (checkIP o args).2.1) :
    reIPMatch nr.Value = true := by
  match args with
  | [] => simp [checkIP] at h
  | [k] => simp [checkIP] at h
  | key :: domain :: rest =>
    rcases hmy : o.myIP with m | s
    · simp [checkIP, getMyIP, hmy] at h
    · by_cases hre : reIPMatch s = true
      · rcases hz : o.getZoneId domain with m | zoneId
        · simp [checkIP, getMyIP, hmy, hre, GetZoneId, hz] at h
        · rcases hr : o.listRecords zoneId 0 with m | records
          · simp [checkIP, getMyIP, hmy, hre, GetZoneId, hz,
                  GetZoneRecords, hr] at h
          · by_cases hdr : records.any (drifted s) = true
            · rcases hcl : o.cloneVersion zoneId with m | nv
              · simp [checkIP, getMyIP, hmy, hre, GetZoneId, hz,
                      GetZoneRecords, hr, hdr, CopyZoneVersion, hcl] at h
              · rw [checkIP_drifted o s key domain rest zoneId nv records
                      hmy hre hz hr hdr hcl] at h
                simp at h
                have hv := applyAndActivate_addRecord o zoneId nv s a b nr h
                rw [hv]
                exact hre
            · have hdf : records.any (drifted s) = false := by simpa using hdr
              rw [checkIP_unchanged o s key domain rest zoneId records
                    hmy hre hz hr hdf] at h
              simp at h
      · simp [checkIP, getMyIP, hmy, hre] at h

/-- C7 counterexample: with the public endpoint returning ab1.2.3.4, the
validation passes because the reIP regexp is unanchored, the run
completes, and it writes an A record whose value is not dotted-quad
IPv4 syntax. -/
theorem C7_counterexample_loose_regexp :
    reIPMatch "ab1.2.3.4" = true ∧
    specDottedQuad "ab1.2.3.4" = false ∧
    Call.addRecord 11 7 ⟨"A", "@", "ab1.2.3.4", 300⟩ ∈
      (checkIP oLoose ["k", "example.org"]).2.1 ∧
    (checkIP oLoose ["k", "example.org"]).1 =
      Except.error (.ipChanged "ab1.2.3.4") := by decide

/-- C8 (amended): deletion of the cloned version is attempted only when
the apply stage fails.  When every record change applies but the
activation call itself fails, the run returns the activation error and
issues no delete-version call at all, leaving the cloned version behind. -/
theorem C8_rollback_only_after_apply_failure (o : Oracle) (key domain : String)
    (rest : List String) (ip : String) (zoneId newVersion : Int)
    (records : List Record) (eAct : GErr)
    (hip : o.myIP = Except.ok ip) (hre : reIPMatch ip = true)
    (hz : o.getZoneId domain = Except.ok zoneId)
    (hrecs0 : o.listRecords zoneId 0 = Except.ok records)
    (hdrift : records.any (drifted ip) = true)
    (hclone : o.cloneVersion zoneId = Except.ok newVersion)
    (hu : (updateRecords o [] zoneId newVersion ip).1 = Except.ok ())
    (hs : (SetZoneVersion o zoneId newVersion).1 = Except.error eAct) :
    (checkIP o (key :: domain :: rest)).1 = Except.error eAct ∧
    ∀ a b, Call.deleteVersion a b ∉ (checkIP o (key :: domain :: rest)).2.1 := by
  have hu2 : updateRecords o [] zoneId newVersion ip =
      (Except.ok (), (updateRecords o [] zoneId newVersion ip).2) := by
    calc updateRecords o [] zoneId newVersion ip
        = ((updateRecords o [] zoneId newVersion ip).1,
           (updateRecords o [] zoneId newVersion ip).2) := rfl
      _ = _ := by rw [hu]
  have haa := applyAndActivate_actfail o zoneId newVersion ip _ eAct hu2 hs
  rw [checkIP_drifted o ip key domain rest zoneId newVersion records
        hip hre hz hrecs0 hdrift hclone, haa]
  refine ⟨rfl, ?_⟩
  intro a b hmem
  simp at hmem
  exact (updateRecords_no_dv_sv o zoneId newVersion ip [] a b).1 hmem

/-- C8 counterexample: every record change applies, the activation call
reports failure, and the run ends with the activation error without ever
issuing a delete-version call: the cloned version 7 is left dangling. -/
theorem C8_counterexample_activation_failure :
    (checkIP oActFail ["k", "example.org"]).1 = Except.error .activationFailed ∧
    (checkIP oActFail ["k", "example.org"]).2.1.count (Call.deleteVersion 11 7) = 0 ∧
    Call.cloneVersion 11 ∈ (checkIP oActFail ["k", "example.org"]).2.1 ∧
    Call.setVersion 11 7 ∈ (checkIP oActFail ["k", "example.org"]).2.1 := by decide

/-- C9: the exit status is 0 exactly when checkIP returned nil, which
happens only in runs that issued no mutating call (the unchanged
outcome); every other run - including the ip-changed outcome of a fully
successful update - exits with status 1 and exactly one formatted error
line on standard error. -/
theorem C9_exit_status (o : Oracle) (args : List String) :
    ((mainRun o args).1 = 0 ↔
      ((checkIP o args).1 = Except.ok () ∧
        (checkIP o args).2.1.filter Call.isMutating = [])) ∧
    ((mainRun o args).1 = 0 ∨ (mainRun o args).1 = 1) ∧
    ((mainRun o args).1 = 1 ↔
      ∃ e, (checkIP o args).1 = Except.error e ∧
        (mainRun o args).2.2 = ["err: " ++ GErr.message e]) := by
  rcases hc : checkIP o args with ⟨res, tr, out⟩
  cases res with
  | ok u =>
    cases u
    have hm : mainRun o args = (0, out, []) := by simp [mainRun, hc]
    have hnomut : (checkIP o args).2.1.filter Call.isMutating = [] :=
      checkIP_ok_no_mut o args (by rw [hc])
    rw [hc] at hnomut
    simp only [hc] at hnomut ⊢
    simp [hm, hnomut]
  | error e =>
    have hm : mainRun o args = (1, out, ["err: " ++ GErr.message e]) := by
      simp [mainRun, hc]
    refine ⟨by simp [hm, hc], by simp [hm], ?_, ?_⟩
    · intro _
      exact ⟨e, rfl, by rw [hm]⟩
    · intro _
      rw [hm]

/-- C10 (amended): a missing positional argument makes checkIP fail
before any remote call: the call trace and the stdout line list are both
empty - in particular no usage message is printed to standard output -
and main exits with status 1 and one error line on standard error. -/
theorem C10_missing_arguments (o : Oracle) (k : String) :
    checkIP o [] = (Except.error .missingApiKey, [], []) ∧
    checkIP o [k] = (Except.error .missingDomain, [], []) ∧
    mainRun o [] = (1, [], ["err: missing api-key argument"]) ∧
    mainRun o [k] = (1, [], ["err: missing domain argument"]) :=
  ⟨rfl, rfl, rfl, rfl⟩

/-- C10 counterexample: invoked with no arguments at all, the program
prints nothing to standard output - no usage message - while reporting
the missing argument on standard error with exit status 1, and it issues
no remote call. -/
theorem C10_counterexample_no_usage_output :
    (mainRun oNull []).1 = 1 ∧
    (mainRun oNull []).2.1 = [] ∧
    (mainRun oNull []).2.2 = ["err: missing api-key argument"] ∧
    (checkIP oNull []).2.1 = [] := by decide

/-- Witness for C1 at the specification scenario: the ip changed, every
call succeeds, and the mutating calls are clone, one delete+add pair,
then the activation. -/
theorem C1_witness :
    (checkIP oChanged ["k", "example.org"]).2.1.filter Call.isMutating =
      Call.cloneVersion 11 ::
        (([recA].filter (drifted "5.6.7.8")).flatMap (pairCalls 11 7 "5.6.7.8")
          ++ [Call.setVersion 11 7]) :=
  C1_transaction_sequence oChanged "k" "example.org" [] "5.6.7.8" 11 7 [recA]
    (by decide) (by decide) (by decide) (by decide) (by decide) (by decide)
    (by decide) (by decide) (by decide)

/-- Witness for C2: the add call fails and the rollback deletion also
fails, yet exactly one delete-version call occurs and the original add
failure is the returned error. -/
theorem C2_witness :
    (checkIP oAddFail ["k", "example.org"]).1 =
      Except.error (.transport "add failed") ∧
    (checkIP oAddFail ["k", "example.org"]).2.1.count
      (Call.deleteVersion 11 7) = 1 ∧
    Call.setVersion 11 7 ∉ (checkIP oAddFail ["k", "example.org"]).2.1 ∧
    ((DeleteZoneVersion oAddFail 11 7).1 ≠ Except.ok () →
      compLine (.transport "add failed") ∈
        (checkIP oAddFail ["k", "example.org"]).2.2) :=
  C2_rollback_preserves_error oAddFail "k" "example.org" [] "5.6.7.8" 11 7
    [recA] (.transport "add failed")
    (by decide) (by decide) (by decide) (by decide) (by decide) (by decide)
    (by decide)

/-- Witness for C3 at the specification scenario: the resolved ip equals
the record value, so the run is read-only. -/
theorem C3_witness :
    checkIP oUnchanged ["k", "example.org"] =
      (Except.ok (), [Call.getZoneId "example.org", Call.listRecords 11 0],
       ["1.2.3.4", zoneIdLine 11, "unchanged ip"]) ∧
    (checkIP oUnchanged ["k", "example.org"]).2.1.filter Call.isMutating = [] :=
  C3_unchanged_no_mutation oUnchanged "k" "example.org" [] "1.2.3.4" 11 [recA]
    (by decide) (by decide) (by decide) (by decide) (by decide)

/-- Witness for C4 at the specification scenario. -/
theorem C4_witness :
    updateRecords oChanged [] 11 7 "5.6.7.8" =
      (Except.ok (), Call.listRecords 11 7 ::
        ([recA].filter (drifted "5.6.7.8")).flatMap (fun r =>
          [Call.deleteRecord 11 7 (recIdInt r),
           Call.addRecord 11 7 ⟨r.type, r.Name, "5.6.7.8", r.TTL⟩])) :=
  C4_replacement_records oChanged 11 7 "5.6.7.8" [recA] (by decide) (by decide)

/-- Witness for C5: a single record with the unparsable identifier 12ab
aborts the apply stage with the parse error and no delete call. -/
theorem C5_witness :
    updateRecords oBadId [] 11 7 "5.6.7.8" =
      (Except.error (.parseFail "12ab" "invalid syntax"),
       Call.listRecords 11 7 ::
         (([] : List Record).filter (drifted "5.6.7.8")).flatMap
           (pairCalls 11 7 "5.6.7.8")) :=
  C5_unparsable_id_aborts oBadId 11 7 "5.6.7.8" [] recBad [] "invalid syntax"
    (by decide) (by decide) (by decide) (by decide)

/-- Witness for C6 at the specification scenario: the delete call returns
count 0, the run fails with the no-record-deleted error and deletes the
cloned version 7. -/
theorem C6_witness :
    (checkIP oDelZero ["k", "example.org"]).1 =
      Except.error .noRecordDeleted ∧
    GErr.message .noRecordDeleted = "no record deleted" ∧
    (checkIP oDelZero ["k", "example.org"]).2.1 =
      [Call.getZoneId "example.org", Call.listRecords 11 0,
       Call.cloneVersion 11, Call.listRecords 11 7] ++
      (([] : List Record).filter (drifted "5.6.7.8")).flatMap
        (pairCalls 11 7 "5.6.7.8") ++
      [Call.deleteRecord 11 7 1001, Call.deleteVersion 11 7] :=
  C6_delete_count_below_one oDelZero "k" "example.org" [] "5.6.7.8" 11 7
    [recA] [] recA [] 1001 0
    (by decide) (by decide) (by decide) (by decide) (by decide) (by decide)
    (by decide) (by decide) (by decide) (by decide) (by decide) (by decide)

/-- Witness for C7: the record-add call observed in the oLoose run has a
value accepted by the unanchored regexp. -/
theorem C7_witness :
    Call.addRecord 11 7 ⟨"A", "@", "ab1.2.3.4", 300⟩ ∈
      (checkIP oLoose ["k", "example.org"]).2.1 ∧
    reIPMatch (NewRecord.mk "A" "@" "ab1.2.3.4" 300).Value = true :=
  ⟨by decide,
   C7_written_value_passes_regexp oLoose ["k", "example.org"] 11 7
     ⟨"A", "@", "ab1.2.3.4", 300⟩ (by decide)⟩

/-- Witness for C8 at the activation-failure environment. -/
theorem C8_witness :
    (checkIP oActFail ["k", "example.org"]).1 =
      Except.error .activationFailed ∧
    Call.deleteVersion 11 7 ∉ (checkIP oActFail ["k", "example.org"]).2.1 := by
  have h := C8_rollback_only_after_apply_failure oActFail "k" "example.org" []
    "5.6.7.8" 11 7 [recA] .activationFailed
    (by decide) (by decide) (by decide) (by decide) (by decide) (by decide)
    (by decide) (by decide)
  exact ⟨h.1, h.2 11 7⟩

end GandiDyn
